import Mathlib

/-!
# Node-side EBS CSI driver: shallow embedding and verification

This file embeds the node service of the aws-ebs-csi-driver repository
(`NodeService` in package `driver`) in Lean 4 and proves properties of it.

The repository snapshot provides the node service's unit tests
(`node_test.go`, with `TestNodeStageVolume`, `TestGetVolumesLimit`,
`TestNodeUnstageVolume`, `TestNodePublishVolume`, `TestNodeUnpublishVolume`,
`TestNodeExpandVolume`, `TestNodeGetInfo`) and the option validation tests
(`options_test.go`), but not `node.go` itself.  Definitions below are
therefore modelled from the specification's description of the node
service, and everywhere the unit tests pin concrete behaviour (exact error
codes and messages, exact attach-limit values, exact mounter-capability
invocations via gomock expectations) the model follows the tests.

gRPC status codes are embedded as `CsiCode`; calls into the Mounter and
Metadata collaborators are recorded in an explicit trace (`Call`) so that
"capability X is never invoked" statements can be made formally.
-/

/-- gRPC status code classes used by the node service
(invalid-argument, not-found, aborted, internal). -/
inductive CsiCode where
  | invalidArgument
  | notFound
  | aborted
  | internal
deriving DecidableEq, Repr

/-- An error returned by a node RPC: a status code plus message. -/
structure CsiError where
  code : CsiCode
  msg : String
deriving DecidableEq, Repr

/-- Modelled from the spec: outpost identity (an AWS ARN) as exposed by the
Metadata collaborator; `none` stands for the zero `arn.ARN{}` value. -/
structure OutpostArn where
  arnPartition : String
  service : String
  region : String
  accountID : String
  resource : String
deriving DecidableEq, Repr

/-- Modelled from the spec: the Metadata Service collaborator (§6), a
read-only view of instance identity plus the result its best-effort
`UpdateMetadata` refresh would produce.  Counts are Go `int`s, hence `Int`. -/
structure MetadataService where
  region : String
  instanceID : String
  availabilityZone : String
  instanceType : String
  numAttachedENIs : Int
  numBlockDeviceMappings : Int
  outpostArn : Option OutpostArn
  updateResult : Except String Unit
deriving Repr

/-- Modelled from the spec: the node-relevant fields of the driver `Options`
struct (`options.go` is absent; `options_test.go` pins the flag names
`volume-attach-limit`, `reserved-volume-attachments`, `legacy-xfs`).
Both limits default to `-1`, meaning "not set". -/
structure Options where
  volumeAttachLimit : Int := -1
  reservedVolumeAttachments : Int := -1
  legacyXFSProgs : Bool := false
deriving DecidableEq, Repr

/-! ## Attach-limit calculator

Modelled from the spec (§4.5) and pinned by `TestGetVolumesLimit`:
explicit limit override, dedicated per-type limits, per-type maximum EBS
volume limits, per-type reserved slots (GPUs/accelerators and NVMe
instance-store volumes), nitro/non-nitro baselines 28/39, subtraction of
attached ENIs and of the reservation for the root volume plus attached
block-device mappings, and a final clamp to a minimum of 1. -/

/-- The instance family is the instance type up to the first dot
(for example `"m5d.large"` has family `"m5d"`). -/
def instanceFamily (instanceType : String) : String :=
  String.mk (instanceType.data.takeWhile (fun c => c ≠ '.'))

/-- Modelled from the spec: legacy (non-nitro, Xen-based) instance families.
`TestGetVolumesLimit` pins `t2` as non-nitro and `t3`, `m5d`, `m7i`, `g4dn`,
`g4ad`, `g5`, `d3`, `d3en`, `dl1`, `inf1`, `mac1`, `u-12tb1` as nitro. -/
def nonNitroInstanceFamilies : List String :=
  ["t1", "t2", "m1", "m2", "m3", "m4", "c1", "c3", "c4", "r3", "r4",
   "x1", "x1e", "i2", "i3", "g2", "g3", "p2", "p3", "d2", "h1", "hs1",
   "f1", "cr1"]

/-- Whether an instance type belongs to the nitro architecture class. -/
def isNitroInstanceType (instanceType : String) : Bool :=
  ¬ (instanceFamily instanceType ∈ nonNitroInstanceFamilies)

/-- Architecture baseline: 28 shared attachment slots for nitro instances,
39 for non-nitro legacy instances. -/
def getMaxAttachments (nitro : Bool) : Int :=
  if nitro then 28 else 39

/-- Modelled from the spec: fixed caps for instance types whose attachment
limit is dedicated to EBS volumes (not shared with ENIs/instance store).
`TestGetVolumesLimit` pins `m7i.48xlarge` (127 after the root reservation). -/
def getDedicatedLimitForInstanceType (instanceType : String) : Int :=
  if instanceType = "m7i.48xlarge" then 128 else 0

/-- Modelled from the spec: per-instance-type maximum EBS volume limits
("exact-type overrides ... with a fixed cap").  Entries are those pinned by
`TestGetVolumesLimit` (`mac1.metal` 15, `u-12tb1.metal` 18, `g5.48xlarge` 8,
`d3.8xlarge`/`d3en.12xlarge` 1, `inf1.*` 25/25/22/10 after subtractions). -/
def getEBSLimitForInstanceType (instanceType : String) : Option Int :=
  (List.lookup instanceType
    [("d3.8xlarge", 3), ("d3en.12xlarge", 3), ("g5.48xlarge", 9),
     ("inf1.xlarge", 26), ("inf1.2xlarge", 26), ("inf1.6xlarge", 23),
     ("inf1.24xlarge", 11), ("mac1.metal", 16), ("u-12tb1.metal", 19)])

/-- Modelled from the spec and `TestGetVolumesLimit`: per-instance-type
count of attachment slots consumed by GPUs/accelerators and NVMe
instance-store volumes.  The test names record the breakdown:
`g4dn.xlarge` "(1 GPU 1 InstanceStoreVolume)" is 2, `g4dn.12xlarge`
"(4 GPUS, 1 InstanceStoreVolume)" is 5, `dl1.24xlarge`
"(8 Accelerator slots , 4 InstanceStoreVolume)" is 12, `m5d.large` has one
NVMe instance-store volume, and the `d3` family has 24 storage devices. -/
def getReservedSlotsForInstanceType (instanceType : String) : Int :=
  ((List.lookup instanceType
    [("m5d.large", 1), ("g4dn.xlarge", 2), ("g4ad.xlarge", 2),
     ("g4dn.12xlarge", 5), ("dl1.24xlarge", 12), ("d3.8xlarge", 24),
     ("d3en.12xlarge", 24)]).getD 0)

/-- Modelled from the spec (§4.5) and pinned by `TestGetVolumesLimit`: the
attach-limit calculator `NodeService.getVolumesLimit`.
1. a non-negative operator-supplied `volumeAttachLimit` is returned verbatim;
2. otherwise the reservation is the operator `reservedVolumeAttachments`
   when set, else one slot for the root volume plus the attached
   block-device mappings;
3. the baseline (28 nitro / 39 non-nitro) is capped by the per-type maximum
   EBS limit when one exists, replaced outright by a dedicated limit when
   one exists, and otherwise (for nitro) reduced by attached ENIs (less the
   primary ENI when a per-type maximum applies) and by the per-type
   reserved GPU/instance-store slots;
4. after subtracting the reservation the result is clamped to at least 1. -/
def getVolumesLimit (opts : Options) (md : MetadataService) : Int :=
  if 0 ≤ opts.volumeAttachLimit then opts.volumeAttachLimit
  else
    let instanceType := md.instanceType
    let isNitro := isNitroInstanceType instanceType
    let available0 : Int := getMaxAttachments isNitro
    let reserved : Int :=
      if opts.reservedVolumeAttachments = -1 then md.numBlockDeviceMappings + 1
      else opts.reservedVolumeAttachments
    let dedicatedLimit := getDedicatedLimitForInstanceType instanceType
    let ebsLimit := getEBSLimitForInstanceType instanceType
    let available1 : Int :=
      match ebsLimit with
      | some m => min m available0
      | none => available0
    let available2 : Int :=
      if dedicatedLimit ≠ 0 then dedicatedLimit
      else if isNitro then
        let enis := md.numAttachedENIs
        let slots := getReservedSlotsForInstanceType instanceType
        match ebsLimit with
        | some _ => available1 - (enis - 1) - slots
        | none => available1 - enis - slots
      else available1
    let available3 := available2 - reserved
    if available3 ≤ 0 then 1 else available3

/-- A metadata state used to instantiate the calculator on the
`TestGetVolumesLimit` rows. -/
def mdFor (instanceType : String) (enis bdms : Int) : MetadataService :=
  { region := "us-west-2", instanceID := "i-1234567890abcdef0",
    availabilityZone := "us-west-2a", instanceType := instanceType,
    numAttachedENIs := enis, numBlockDeviceMappings := bdms,
    outpostArn := none, updateResult := Except.ok () }

/-- Options with both attach-limit knobs unset (the `-1` defaults). -/
def optsUnset : Options := { volumeAttachLimit := -1, reservedVolumeAttachments := -1 }

section GetVolumesLimitFixtures
-- The eighteen rows of TestGetVolumesLimit, replayed on the model.
example : getVolumesLimit { volumeAttachLimit := 10, reservedVolumeAttachments := -1 }
    (mdFor "t2.medium" 0 0) = 10 := by decide
example : getVolumesLimit optsUnset (mdFor "t2.medium" 0 0) = 38 := by decide
example : getVolumesLimit { volumeAttachLimit := -1, reservedVolumeAttachments := 3 }
    (mdFor "t2.medium" 0 0) = 36 := by decide
example : getVolumesLimit optsUnset (mdFor "m5d.large" 3 0) = 23 := by decide
example : getVolumesLimit optsUnset (mdFor "d3en.12xlarge" 1 0) = 1 := by decide
example : getVolumesLimit optsUnset (mdFor "d3.8xlarge" 1 0) = 1 := by decide
example : getVolumesLimit optsUnset (mdFor "m7i.48xlarge" 0 0) = 127 := by decide
example : getVolumesLimit { volumeAttachLimit := -1, reservedVolumeAttachments := 0 }
    (mdFor "t3.xlarge" 40 0) = 1 := by decide
example : getVolumesLimit optsUnset (mdFor "mac1.metal" 1 0) = 15 := by decide
example : getVolumesLimit optsUnset (mdFor "u-12tb1.metal" 1 0) = 18 := by decide
example : getVolumesLimit optsUnset (mdFor "g4dn.xlarge" 1 0) = 24 := by decide
example : getVolumesLimit optsUnset (mdFor "g4ad.xlarge" 1 0) = 24 := by decide
example : getVolumesLimit optsUnset (mdFor "g4dn.12xlarge" 1 0) = 21 := by decide
example : getVolumesLimit optsUnset (mdFor "dl1.24xlarge" 1 0) = 14 := by decide
example : getVolumesLimit optsUnset (mdFor "g5.48xlarge" 1 0) = 8 := by decide
example : getVolumesLimit optsUnset (mdFor "inf1.xlarge" 1 0) = 25 := by decide
example : getVolumesLimit optsUnset (mdFor "inf1.2xlarge" 1 0) = 25 := by decide
example : getVolumesLimit optsUnset (mdFor "inf1.6xlarge" 1 0) = 22 := by decide
example : getVolumesLimit optsUnset (mdFor "inf1.24xlarge" 1 0) = 10 := by decide
end GetVolumesLimitFixtures

/-! ## Requests, capabilities, and the call trace -/

/-- CSI volume access modes (the protobuf enum values used by the tests). -/
inductive AccessMode where
  | unknown
  | singleNodeWriter
  | singleNodeReaderOnly
  | multiNodeReaderOnly
  | multiNodeSingleWriter
  | multiNodeMultiWriter
deriving DecidableEq, Repr

/-- Modelled from the spec: the supported access-mode set
(`TestNodeStageVolume` pins `UNKNOWN` as unsupported and
`SINGLE_NODE_WRITER` as supported). -/
def AccessMode.supported : AccessMode → Bool
  | .unknown => false
  | _ => true

/-- The inner `MountVolume` message of a Mount-access capability. -/
structure MountVolume where
  fsType : String
  mountFlags : List String
deriving DecidableEq, Repr

/-- The capability access-type oneof: Block, or Mount whose inner
`MountVolume` pointer may be nil (`none`). -/
inductive AccessType where
  | block
  | mount (inner : Option MountVolume)
deriving DecidableEq, Repr

/-- A CSI volume capability: access type plus access mode. -/
structure VolumeCapability where
  accessType : AccessType
  accessMode : AccessMode
deriving DecidableEq, Repr

/-- The volume-context keys consumed by the node service (each `none` when
the key is absent from the request's context map). -/
structure VolumeContext where
  attrPartition : Option String := none
  blockSize : Option String := none
  inodeSize : Option String := none
  bytesPerInode : Option String := none
  numberOfInodes : Option String := none
  ext4BigAlloc : Option String := none
  ext4ClusterSize : Option String := none
deriving DecidableEq, Repr

/-- A `NodeStageVolume` request (the publish context is reduced to the one
key consumed, the device-path hint). -/
structure StageRequest where
  volumeId : String
  stagingTargetPath : String
  capability : Option VolumeCapability
  volumeContext : VolumeContext := {}
  devicePathHint : Option String := none
deriving DecidableEq, Repr

/-- A `NodeUnstageVolume` request. -/
structure UnstageRequest where
  volumeId : String
  stagingTargetPath : String
deriving DecidableEq, Repr

/-- A `NodePublishVolume` request. -/
structure PublishRequest where
  volumeId : String
  stagingTargetPath : String
  targetPath : String
  capability : Option VolumeCapability
  volumeContext : VolumeContext := {}
  devicePathHint : Option String := none
  readOnly : Bool := false
deriving DecidableEq, Repr

/-- A `NodeUnpublishVolume` request. -/
structure UnpublishRequest where
  volumeId : String
  targetPath : String
deriving DecidableEq, Repr

/-- A `NodeExpandVolume` request. -/
structure ExpandRequest where
  volumeId : String
  volumePath : String
  capability : Option VolumeCapability := none
deriving DecidableEq, Repr

/-- One call into the Mounter or Metadata collaborator, as recorded in an
operation's trace (arguments only; results come from the oracle). -/
inductive Call where
  | getRegion
  | updateMetadata
  | getInstanceID
  | getAvailabilityZone
  | getOutpostArn
  | findDevicePath (devicePath volumeId part region : String)
  | pathExists (path : String)
  | makeDir (path : String)
  | makeFile (path : String)
  | getDeviceNameFromMount (path : String)
  | formatAndMount (source target fsType : String) (mountOptions formatOptions : List String)
  | needResize (device path : String)
  | resize (device path : String)
  | unstageTarget (path : String)
  | unpublishTarget (path : String)
  | isBlockDevice (path : String)
  | getBlockSizeBytes (path : String)
  | isLikelyNotMountPoint (path : String)
  | mountCall (source target fsType : String) (opts : List String)
  | preparePublishTarget (path : String)
deriving DecidableEq, Repr

/-- Whether a trace entry is the format-and-mount capability. -/
def Call.isFormatAndMount : Call → Bool
  | .formatAndMount _ _ _ _ _ => true
  | _ => false

/-- Whether a trace entry is the staging unmount capability. -/
def Call.isUnstage : Call → Bool
  | .unstageTarget _ => true
  | _ => false

/-- Whether a trace entry is the filesystem/device resize capability. -/
def Call.isResize : Call → Bool
  | .resize _ _ => true
  | _ => false

/-- Modelled from the spec: the Mounter capability (§6) as a deterministic
oracle mapping each call's arguments to the result the real system command
would produce (`Except.error` is a Go non-nil error). -/
structure Mounter where
  findDevicePath : String → String → String → String → Except String String
  pathExists : String → Except String Bool
  makeDir : String → Except String Unit
  makeFile : String → Except String Unit
  getDeviceNameFromMount : String → Except String (String × Nat)
  formatAndMount : String → String → String → List String → List String → Except String Unit
  needResize : String → String → Except String Bool
  resize : String → String → Except String Bool
  unstageTarget : String → Except String Unit
  unpublishTarget : String → Except String Unit
  isBlockDevice : String → Except String Bool
  getBlockSizeBytes : String → Except String Int
  isLikelyNotMountPoint : String → Except String Bool
  mountCall : String → String → String → List String → Except String Unit
  preparePublishTarget : String → Except String Unit

/-- The result of a node RPC: its outcome together with the chronological
trace of collaborator calls it made. -/
abbrev OpResult (α : Type) := Except CsiError α × List Call

/-- Sequencing helper: perform one collaborator call, record it in the
trace, wrap a non-nil error via `wrapErr`, and otherwise continue with the
call's result. -/
def step {α β : Type} (res : Except String β) (call : Call)
    (wrapErr : String → CsiError) (k : β → OpResult α) : OpResult α :=
  match res with
  | .error e => (.error (wrapErr e), [call])
  | .ok b => ((k b).1, call :: (k b).2)

theorem step_error {α β : Type} (e : String) (call : Call)
    (wrapErr : String → CsiError) (k : β → OpResult α) :
    step (.error e) call wrapErr k = (.error (wrapErr e), [call]) := rfl

theorem step_ok {α β : Type} (b : β) (call : Call)
    (wrapErr : String → CsiError) (k : β → OpResult α) :
    step (.ok b) call wrapErr k = ((k b).1, call :: (k b).2) := rfl

/-! ## Validation helpers and format options -/

/-- Wrap a string in Go `%q`-style double quotes. -/
def quoteStr (s : String) : String := "\"" ++ s ++ "\""

/-- The conflict message of `internal.VolumeOperationAlreadyExists`,
formatted with the volume id (pinned verbatim by the
`operation_already_exists` rows of the node tests). -/
def volumeOperationAlreadyExists (volumeId : String) : String :=
  "An operation with the given volume=" ++ quoteStr volumeId ++ " is already in progress"

/-- The default filesystem type used when a Mount capability leaves
`fsType` unspecified. -/
def defaultFsType : String := "ext4"

/-- Modelled from the spec: the supported filesystem-type set
(`TestNodeStageVolume` pins `ext4`/`xfs` supported, `invalid` rejected,
empty defaulted). -/
def validFSTypes : List String := ["ext2", "ext3", "ext4", "xfs", "ntfs"]

/-- A string made of decimal digits only (`""` included): the shape of a
parsed non-negative integer parameter. -/
def digitsOnly (s : String) : Bool := s.data.all Char.isDigit

/-- Modelled from the spec (§4.2): a partition attribute is valid when it
is empty or a non-negative integer; anything else is an invalid volume
attribute (`TestNodeStageVolume` pins `"invalid-partition"` as invalid). -/
def isValidPartitionValue (p : String) : Bool := digitsOnly p

/-- Validity of the volume context: the only attribute checked here is the
partition (`isValidVolumeContext` in the source). -/
def isValidVolumeContext (ctx : VolumeContext) : Bool :=
  match ctx.attrPartition with
  | none => true
  | some p => isValidPartitionValue p

/-- Modelled from the spec (§4.2): the partition argument handed to device
resolution.  A missing attribute, the empty string, or `"0"` denote the
whole device (empty argument); any other value is passed through
(`TestNodeStageVolume` pins `"0" ↦ ""` and `"1" ↦ "1"`). -/
def requestedPartition (ctx : VolumeContext) : String :=
  match ctx.attrPartition with
  | none => ""
  | some p => if p = "0" then "" else p

/-- Filesystem types accepting a plain block-size format parameter. -/
def blockSizeFsTypes : List String := ["ext2", "ext3", "ext4", "xfs"]

/-- Filesystem types accepting an inode-size format parameter. -/
def inodeSizeFsTypes : List String := ["ext2", "ext3", "ext4", "xfs"]

/-- Filesystem types accepting a bytes-per-inode format parameter. -/
def bytesPerInodeFsTypes : List String := ["ext2", "ext3", "ext4"]

/-- Filesystem types accepting a number-of-inodes format parameter. -/
def numberOfInodesFsTypes : List String := ["ext2", "ext3", "ext4"]

/-- Filesystem types accepting the ext4-only bigalloc/cluster-size
parameters. -/
def ext4OnlyFsTypes : List String := ["ext4"]

/-- Check one numeric volume-context format parameter: it must be supported
by the requested filesystem type (the ext4 and xfs option grammars are
never mixed) and must be a non-negative integer
(`TestNodeStageVolume` pins the `Invalid <name> (aborting!): <nil>`
invalid-argument messages). -/
def checkNumericParam (v : Option String) (fsType name : String)
    (allowed : List String) : Option CsiError :=
  match v with
  | none => none
  | some s =>
    if ¬ (fsType ∈ allowed) then
      some ⟨.invalidArgument, "Cannot use " ++ name ++ " with fstype " ++ fsType⟩
    else if digitsOnly s ∧ s ≠ "" then none
    else some ⟨.invalidArgument, "Invalid " ++ name ++ " (aborting!): <nil>"⟩

/-- Check the boolean ext4-bigalloc volume-context parameter. -/
def checkBoolParam (v : Option String) (fsType name : String)
    (allowed : List String) : Option CsiError :=
  match v with
  | none => none
  | some s =>
    if ¬ (fsType ∈ allowed) then
      some ⟨.invalidArgument, "Cannot use " ++ name ++ " with fstype " ++ fsType⟩
    else if s = "true" ∨ s = "false" then none
    else some ⟨.invalidArgument, "Invalid " ++ name ++ " (aborting!): <nil>"⟩

/-- The first failing format-parameter check for a staging request, in the
order the parameters are validated. -/
def stageParamError (fsType : String) (ctx : VolumeContext) : Option CsiError :=
  (([checkNumericParam ctx.blockSize fsType "blocksize" blockSizeFsTypes,
     checkNumericParam ctx.inodeSize fsType "inodesize" inodeSizeFsTypes,
     checkNumericParam ctx.bytesPerInode fsType "bytesperinode" bytesPerInodeFsTypes,
     checkNumericParam ctx.numberOfInodes fsType "numberofinodes" numberOfInodesFsTypes,
     checkBoolParam ctx.ext4BigAlloc fsType "ext4bigalloc" ext4OnlyFsTypes,
     checkNumericParam ctx.ext4ClusterSize fsType "ext4clustersize" ext4OnlyFsTypes]).findSome? id)

/-- Modelled from the spec (§8) and pinned by the `format_options_*` rows of
`TestNodeStageVolume`: the filesystem-specific format-option list handed to
format-and-mount.  ext4 options are `-b N`, `-I N`, `-i N`, `-N N`,
`-O bigalloc`, `-C N`; xfs options are `-b size=N`, `-i size=N`, plus the
legacy-xfsprogs feature-downgrade flags when configured. -/
def buildFormatOptions (fsType : String) (ctx : VolumeContext) (legacyXFS : Bool) :
    List String :=
  (match ctx.blockSize with
   | none => []
   | some bs => if fsType = "xfs" then ["-b", "size=" ++ bs] else ["-b", bs]) ++
  (match ctx.inodeSize with
   | none => []
   | some sz => if fsType = "xfs" then ["-i", "size=" ++ sz] else ["-I", sz]) ++
  (match ctx.bytesPerInode with
   | none => []
   | some b => ["-i", b]) ++
  (match ctx.numberOfInodes with
   | none => []
   | some n => ["-N", n]) ++
  (if ctx.ext4BigAlloc = some "true" then ["-O", "bigalloc"] else []) ++
  (match ctx.ext4ClusterSize with
   | none => []
   | some c => ["-C", c]) ++
  (if fsType = "xfs" ∧ legacyXFS then ["-m", "bigtime=0,inobtcount=0,reflink=0"] else [])

/-! ## NodeStageVolume -/

/-- The staging work derived from a validated request: either a Block
pass-through or a Mount staging with its resolved parameters. -/
structure StagePlan where
  volumeId : String
  target : String
  isBlock : Bool
  fsType : String := ""
  mountFlags : List String := []
  formatOptions : List String := []
  devicePath : String := ""
  part : String := ""
deriving DecidableEq, Repr

/-- Modelled from the spec (§4.3 Stage) and pinned by `TestNodeStageVolume`:
request validation and parameter derivation for `NodeStageVolume`
(everything before the first collaborator call). -/
def stageCheck (opts : Options) (req : StageRequest) : Except CsiError StagePlan :=
  if req.volumeId = "" then .error ⟨.invalidArgument, "Volume ID not provided"⟩
  else if req.stagingTargetPath = "" then .error ⟨.invalidArgument, "Staging target not provided"⟩
  else
    match req.capability with
    | none => .error ⟨.invalidArgument, "Volume capability not provided"⟩
    | some cap =>
      if ¬ cap.accessMode.supported then
        .error ⟨.invalidArgument, "Volume capability not supported"⟩
      else if ¬ isValidVolumeContext req.volumeContext then
        .error ⟨.invalidArgument, "Volume Attribute is not valid"⟩
      else
        match cap.accessType with
        | .block => .ok { volumeId := req.volumeId, target := req.stagingTargetPath, isBlock := true }
        | .mount none =>
          .error ⟨.invalidArgument, "NodeStageVolume: mount is nil within volume capability"⟩
        | .mount (some mnt) =>
          let fsType := if mnt.fsType = "" then defaultFsType else mnt.fsType
          if ¬ (fsType ∈ validFSTypes) then
            .error ⟨.invalidArgument, "NodeStageVolume: invalid fstype " ++ mnt.fsType⟩
          else
            match stageParamError fsType req.volumeContext with
            | some e => .error e
            | none =>
              match req.devicePathHint with
              | none => .error ⟨.invalidArgument, "Device path not provided"⟩
              | some dp =>
                .ok { volumeId := req.volumeId, target := req.stagingTargetPath,
                      isBlock := false, fsType := fsType, mountFlags := mnt.mountFlags,
                      formatOptions := buildFormatOptions fsType req.volumeContext opts.legacyXFSProgs,
                      devicePath := dp, part := requestedPartition req.volumeContext }

/-- The tail of Mount staging: inspect the staging path's existing mount;
if the resolved device is already mounted there, succeed idempotently
without formatting; otherwise format-and-mount, then resize in place when
the device outgrew the filesystem. -/
def stageMountCheck (m : Mounter) (plan : StagePlan) (source : String) : OpResult Unit :=
  step (m.getDeviceNameFromMount plan.target) (.getDeviceNameFromMount plan.target)
    (fun e => ⟨.internal, "failed to check if volume is already mounted: " ++ e⟩) fun devRef =>
  if devRef.1 = source then (.ok (), [])
  else
    step (m.formatAndMount source plan.target plan.fsType plan.mountFlags plan.formatOptions)
      (.formatAndMount source plan.target plan.fsType plan.mountFlags plan.formatOptions)
      (fun e => ⟨.internal, "could not format " ++ quoteStr source ++ " and mount it at "
        ++ quoteStr plan.target ++ ": " ++ e⟩) fun _ =>
    step (m.needResize source plan.target) (.needResize source plan.target)
      (fun e => ⟨.internal, "Could not determine if volume " ++ quoteStr plan.volumeId
        ++ " (" ++ quoteStr source ++ ") need to be resized:  " ++ e⟩) fun nr =>
    if nr then
      step (m.resize source plan.target) (.resize source plan.target)
        (fun e => ⟨.internal, "Could not resize volume " ++ quoteStr plan.volumeId
          ++ " (" ++ quoteStr source ++ "):  " ++ e⟩) fun _ =>
      (.ok (), [])
    else (.ok (), [])

/-- Ensure the staging directory exists, then hand over to the mount
check. -/
def stageEnsureDir (m : Mounter) (plan : StagePlan) (source : String) (pExists : Bool) :
    OpResult Unit :=
  if pExists then stageMountCheck m plan source
  else
    step (m.makeDir plan.target) (.makeDir plan.target)
      (fun e => ⟨.internal, "could not create target dir " ++ quoteStr plan.target ++ ": " ++ e⟩)
      fun _ => stageMountCheck m plan source

/-- The collaborator-calling part of Mount staging: resolve the device
path (under the metadata region), check/create the staging directory, and
continue with the mount check. -/
def stageMount (m : Mounter) (md : MetadataService) (plan : StagePlan) : OpResult Unit :=
  let rest :=
    step (m.findDevicePath plan.devicePath plan.volumeId plan.part md.region)
      (.findDevicePath plan.devicePath plan.volumeId plan.part md.region)
      (fun e => ⟨.notFound, "Failed to find device path " ++ plan.devicePath ++ ". " ++ e⟩)
      fun source =>
    step (m.pathExists plan.target) (.pathExists plan.target)
      (fun e => ⟨.internal, "failed to check if target " ++ quoteStr plan.target
        ++ " exists: " ++ e⟩) fun pExists =>
    stageEnsureDir m plan source pExists
  (rest.1, Call.getRegion :: rest.2)

/-- Modelled from the spec (§2, §4.3) and pinned by `TestNodeStageVolume`:
`NodeService.NodeStageVolume`.  The in-flight registry guard rejects a
duplicate operation for the volume id with an aborted error before any
other work; validation errors are invalid-argument; Block staging is a
pass-through; Mount staging formats/mounts via the Mounter capability. -/
def nodeStageVolume (m : Mounter) (md : MetadataService) (opts : Options)
    (inFlight : List String) (req : StageRequest) : OpResult Unit :=
  if req.volumeId ∈ inFlight then
    (.error ⟨.aborted, volumeOperationAlreadyExists req.volumeId⟩, [])
  else
    match stageCheck opts req with
    | .error e => (.error e, [])
    | .ok plan =>
      if plan.isBlock then (.ok (), [])
      else stageMount m md plan

/-! ## NodeUnstageVolume -/

/-- Modelled from the spec (§4.3 Unstage) and pinned by
`TestNodeUnstageVolume`: `NodeService.NodeUnstageVolume`.  After the
in-flight guard and field validation, the staging path's mount reference
count is read; zero is an idempotent no-op success, otherwise the target
is unmounted (failure is an internal error). -/
def nodeUnstageVolume (m : Mounter) (inFlight : List String) (req : UnstageRequest) :
    OpResult Unit :=
  if req.volumeId ∈ inFlight then
    (.error ⟨.aborted, volumeOperationAlreadyExists req.volumeId⟩, [])
  else if req.volumeId = "" then (.error ⟨.invalidArgument, "Volume ID not provided"⟩, [])
  else if req.stagingTargetPath = "" then
    (.error ⟨.invalidArgument, "Staging target not provided"⟩, [])
  else
    step (m.getDeviceNameFromMount req.stagingTargetPath)
      (.getDeviceNameFromMount req.stagingTargetPath)
      (fun e => ⟨.internal, "failed to check if target " ++ quoteStr req.stagingTargetPath
        ++ " is a mount point: " ++ e⟩) fun devRef =>
    if devRef.2 = 0 then (.ok (), [])
    else
      step (m.unstageTarget req.stagingTargetPath) (.unstageTarget req.stagingTargetPath)
        (fun e => ⟨.internal, "Could not unmount target " ++ quoteStr req.stagingTargetPath
          ++ ": " ++ e⟩) fun _ =>
      (.ok (), [])

/-! ## NodePublishVolume and NodeUnpublishVolume -/

/-- The parent directory of a path (the Go `filepath.Dir` of the publish
target, used to ensure the global mount directory exists). -/
def parentDir (p : String) : String :=
  match (p.data.reverse.findIdx? (fun c => c = '/')) with
  | none => "."
  | some i => String.mk (p.data.take (p.data.length - 1 - i))

/-- Bind-mount options for publishing, honoring read-only. -/
def publishMountOptions (readOnly : Bool) : List String :=
  if readOnly then ["bind", "ro"] else ["bind"]

/-- Ensure the publish target's directory, create the target file, and
bind-mount the device unless already mounted. -/
def publishBlockEnsureDir (m : Mounter) (req : PublishRequest) (source : String)
    (dirExists : Bool) : OpResult Unit :=
  let finish : OpResult Unit :=
    step (m.makeFile req.targetPath) (.makeFile req.targetPath)
      (fun e => ⟨.internal, "Could not create file " ++ quoteStr req.targetPath ++ ": " ++ e⟩)
      fun _ =>
    step (m.isLikelyNotMountPoint req.targetPath) (.isLikelyNotMountPoint req.targetPath)
      (fun e => ⟨.internal, "Could not check if " ++ quoteStr req.targetPath
        ++ " is a mount point: " ++ e⟩) fun notMnt =>
    if notMnt then
      step (m.mountCall source req.targetPath "" (publishMountOptions req.readOnly))
        (.mountCall source req.targetPath "" (publishMountOptions req.readOnly))
        (fun e => ⟨.internal, "Could not mount " ++ quoteStr source ++ " at "
          ++ quoteStr req.targetPath ++ ": " ++ e⟩) fun _ =>
      (.ok (), [])
    else (.ok (), [])
  if dirExists then finish
  else
    step (m.makeDir (parentDir req.targetPath)) (.makeDir (parentDir req.targetPath))
      (fun e => ⟨.internal, "Could not create dir " ++ quoteStr (parentDir req.targetPath)
        ++ ": " ++ e⟩) fun _ => finish

/-- Modelled from the spec (§4.3 Publish, Block capability) and pinned by
the `nodePublishVolumeForBlock_*` rows of `TestNodePublishVolume`: resolve
the device (partition-aware), ensure the target exists as a file, and
bind-mount the device node unless it is already mounted. -/
def publishBlock (m : Mounter) (md : MetadataService) (req : PublishRequest) :
    OpResult Unit :=
  match req.devicePathHint with
  | none => (.error ⟨.invalidArgument, "Device path not provided"⟩, [])
  | some dp =>
    if ¬ isValidVolumeContext req.volumeContext then
      (.error ⟨.invalidArgument, "Volume Attribute is invalid"⟩, [])
    else
      let part := requestedPartition req.volumeContext
      let rest :=
        step (m.findDevicePath dp req.volumeId part md.region)
          (.findDevicePath dp req.volumeId part md.region)
          (fun e => ⟨.notFound, "Failed to find device path " ++ dp ++ ". " ++ e⟩)
          fun source =>
        step (m.pathExists (parentDir req.targetPath)) (.pathExists (parentDir req.targetPath))
          (fun e => ⟨.internal, "Could not check if path exists " ++ quoteStr (parentDir req.targetPath)
            ++ ": " ++ e⟩) fun dirExists =>
        publishBlockEnsureDir m req source dirExists
      (rest.1, Call.getRegion :: rest.2)

/-- Modelled from the spec (§4.3 Publish, Mount capability) and pinned by
the `success_fs` row of `TestNodePublishVolume`: prepare the publish
target, then bind-mount the staged path onto it unless already mounted. -/
def publishMount (m : Mounter) (req : PublishRequest) (inner : Option MountVolume) :
    OpResult Unit :=
  let fsType := (inner.map (fun mv => mv.fsType)).getD ""
  let flags := (inner.map (fun mv => mv.mountFlags)).getD []
  let opts := publishMountOptions req.readOnly ++ flags
  step (m.preparePublishTarget req.targetPath) (.preparePublishTarget req.targetPath)
    (fun e => ⟨.internal, "Could not prepare publish target " ++ quoteStr req.targetPath
      ++ ": " ++ e⟩) fun _ =>
  step (m.isLikelyNotMountPoint req.targetPath) (.isLikelyNotMountPoint req.targetPath)
    (fun e => ⟨.internal, "Could not check if " ++ quoteStr req.targetPath
      ++ " is a mount point: " ++ e⟩) fun notMnt =>
  if notMnt then
    step (m.mountCall req.stagingTargetPath req.targetPath fsType opts)
      (.mountCall req.stagingTargetPath req.targetPath fsType opts)
      (fun e => ⟨.internal, "Could not mount " ++ quoteStr req.stagingTargetPath ++ " at "
        ++ quoteStr req.targetPath ++ ": " ++ e⟩) fun _ =>
    (.ok (), [])
  else (.ok (), [])

/-- Modelled from the spec (§2, §4.3) and pinned by `TestNodePublishVolume`:
`NodeService.NodePublishVolume`, guarded by the in-flight registry. -/
def nodePublishVolume (m : Mounter) (md : MetadataService) (inFlight : List String)
    (req : PublishRequest) : OpResult Unit :=
  if req.volumeId ∈ inFlight then
    (.error ⟨.aborted, volumeOperationAlreadyExists req.volumeId⟩, [])
  else if req.volumeId = "" then (.error ⟨.invalidArgument, "Volume ID not provided"⟩, [])
  else if req.stagingTargetPath = "" then
    (.error ⟨.invalidArgument, "Staging target not provided"⟩, [])
  else if req.targetPath = "" then (.error ⟨.invalidArgument, "Target path not provided"⟩, [])
  else
    match req.capability with
    | none => (.error ⟨.invalidArgument, "Volume capability not provided"⟩, [])
    | some cap =>
      if ¬ cap.accessMode.supported then
        (.error ⟨.invalidArgument, "Volume capability not supported"⟩, [])
      else
        match cap.accessType with
        | .block => publishBlock m md req
        | .mount inner => publishMount m req inner

/-- Modelled from the spec (§4.3 Unpublish) and pinned by
`TestNodeUnpublishVolume`: `NodeService.NodeUnpublishVolume`; the target
unmount treats "not mounted" as success inside the capability, and a
failure is an internal error. -/
def nodeUnpublishVolume (m : Mounter) (inFlight : List String) (req : UnpublishRequest) :
    OpResult Unit :=
  if req.volumeId ∈ inFlight then
    (.error ⟨.aborted, volumeOperationAlreadyExists req.volumeId⟩, [])
  else if req.volumeId = "" then (.error ⟨.invalidArgument, "Volume ID not provided"⟩, [])
  else if req.targetPath = "" then (.error ⟨.invalidArgument, "Target path not provided"⟩, [])
  else
    step (m.unpublishTarget req.targetPath) (.unpublishTarget req.targetPath)
      (fun e => ⟨.internal, "Could not unmount " ++ quoteStr req.targetPath ++ ": " ++ e⟩)
      fun _ => (.ok (), [])

/-! ## NodeExpandVolume -/

/-- A `NodeExpandVolume` response; the Go zero-valued
`csi.NodeExpandVolumeResponse{}` has `capacityBytes = 0`. -/
structure ExpandResponse where
  capacityBytes : Int
deriving DecidableEq, Repr

/-- The filesystem-resize path of `NodeExpandVolume`: read the device name
backing the mount, resolve its device path, resize, and report the
post-resize device size. -/
def expandFs (m : Mounter) (md : MetadataService) (req : ExpandRequest) :
    OpResult ExpandResponse :=
  step (m.getDeviceNameFromMount req.volumePath) (.getDeviceNameFromMount req.volumePath)
    (fun e => ⟨.internal, "failed to get device name from mount " ++ req.volumePath
      ++ ": " ++ e⟩) fun devRef =>
  let rest :=
    step (m.findDevicePath devRef.1 req.volumeId "" md.region)
      (.findDevicePath devRef.1 req.volumeId "" md.region)
      (fun e => ⟨.notFound, "failed to find device path for device name " ++ devRef.1
        ++ " for mount " ++ req.volumePath ++ ": " ++ e⟩) fun devicePath =>
    step (m.resize devicePath req.volumePath) (.resize devicePath req.volumePath)
      (fun e => ⟨.internal, "Could not resize volume " ++ quoteStr req.volumeId ++ " ("
        ++ quoteStr devicePath ++ "): " ++ e⟩) fun _ =>
    step (m.getBlockSizeBytes devicePath) (.getBlockSizeBytes devicePath)
      (fun e => ⟨.internal, "failed to get block capacity on path " ++ req.volumePath
        ++ ": " ++ e⟩) fun n =>
    (.ok ⟨n⟩, [])
  (rest.1, Call.getRegion :: rest.2)

/-- Modelled from the spec (§4.4) and pinned by `TestNodeExpandVolume`:
`NodeService.NodeExpandVolume`.  A Block-capability request is a no-op
returning the empty response; without a capability, a volume path that is
itself a block device reports its size directly; otherwise the filesystem
is resized via the Mounter and the post-resize size reported. -/
def nodeExpandVolume (m : Mounter) (md : MetadataService) (inFlight : List String)
    (req : ExpandRequest) : OpResult ExpandResponse :=
  if req.volumeId ∈ inFlight then
    (.error ⟨.aborted, volumeOperationAlreadyExists req.volumeId⟩, [])
  else if req.volumeId = "" then (.error ⟨.invalidArgument, "Volume ID not provided"⟩, [])
  else if req.volumePath = "" then
    (.error ⟨.invalidArgument, "volume path must be provided"⟩, [])
  else
    match req.capability with
    | some cap =>
      if ¬ cap.accessMode.supported then
        (.error ⟨.invalidArgument, "VolumeCapability is invalid"⟩, [])
      else
        match cap.accessType with
        | .block => (.ok ⟨0⟩, [])
        | .mount _ => expandFs m md req
    | none =>
      step (m.isBlockDevice req.volumePath) (.isBlockDevice req.volumePath)
        (fun e => ⟨.internal, "failed to determine if volumePath [" ++ req.volumePath
          ++ "] is a block device: " ++ e⟩) fun isBlk =>
      if isBlk then
        step (m.getBlockSizeBytes req.volumePath) (.getBlockSizeBytes req.volumePath)
          (fun e => ⟨.internal, "failed to get block capacity on path " ++ req.volumePath
            ++ ": " ++ e⟩) fun n =>
        (.ok ⟨n⟩, [])
      else expandFs m md req

/-! ## NodeGetInfo -/

/-- Topology key for the driver-specific zone label. -/
def zoneTopologyKey : String := "topology.ebs.csi.aws.com/zone"

/-- The well-known Kubernetes zone topology key. -/
def wellKnownZoneTopologyKey : String := "topology.kubernetes.io/zone"

/-- Topology key for the host operating system. -/
def osTopologyKey : String := "kubernetes.io/os"

/-- Topology key for the outpost region segment. -/
def awsRegionKey : String := "topology.ebs.csi.aws.com/aws-region"

/-- Topology key for the outpost partition segment. -/
def awsPartitionKey : String := "topology.ebs.csi.aws.com/aws-partition"

/-- Topology key for the outpost account segment. -/
def awsAccountIDKey : String := "topology.ebs.csi.aws.com/aws-account-id"

/-- Topology key for the outpost id segment. -/
def awsOutpostIDKey : String := "topology.ebs.csi.aws.com/outpost-id"

/-- A `NodeGetInfo` response: the node id and the accessible-topology
segments (as an ordered association list). -/
structure NodeGetInfoResponse where
  nodeId : String
  segments : List (String × String)
deriving DecidableEq, Repr

/-- Modelled from the spec (§6, §7) and pinned by `TestNodeGetInfo`:
`NodeService.NodeGetInfo`.  The metadata refresh is attempted first and its
failure is only logged — both branches of the match return the same fully
populated response: node id from the instance id, the zone under the
driver and well-known zone keys, the host OS, and the outpost segments
when an outpost identity is present. -/
def nodeGetInfo (md : MetadataService) (hostOS : String) : OpResult NodeGetInfoResponse :=
  let calls := [Call.updateMetadata, Call.getInstanceID, Call.getAvailabilityZone,
    Call.getOutpostArn]
  let zone := md.availabilityZone
  let base := [(zoneTopologyKey, zone), (wellKnownZoneTopologyKey, zone),
    (osTopologyKey, hostOS)]
  let segments :=
    match md.outpostArn with
    | none => base
    | some a => base ++ [(awsRegionKey, a.region), (awsPartitionKey, a.arnPartition),
        (awsAccountIDKey, a.accountID), (awsOutpostIDKey, a.resource)]
  match md.updateResult with
  | .ok _ => (.ok ⟨md.instanceID, segments⟩, calls)
  | .error _ => (.ok ⟨md.instanceID, segments⟩, calls)

/-! ## Test fixtures replayed on the model

Concrete oracles and requests reproducing rows of the node unit tests, to
check that the model computes the behaviours the tests pin down. -/

/-- An everything-succeeds Mounter oracle: the device path resolves to the
hint with the partition appended, the staging path exists and carries no
mount, no resize is needed, sizes read 1000 bytes. -/
def mounterOk : Mounter where
  findDevicePath := fun dp _ part _ => .ok (dp ++ part)
  pathExists := fun _ => .ok true
  makeDir := fun _ => .ok ()
  makeFile := fun _ => .ok ()
  getDeviceNameFromMount := fun _ => .ok ("", 1)
  formatAndMount := fun _ _ _ _ _ => .ok ()
  needResize := fun _ _ => .ok false
  resize := fun _ _ => .ok true
  unstageTarget := fun _ => .ok ()
  unpublishTarget := fun _ => .ok ()
  isBlockDevice := fun _ => .ok false
  getBlockSizeBytes := fun _ => .ok 1000
  isLikelyNotMountPoint := fun _ => .ok true
  mountCall := fun _ _ _ _ => .ok ()
  preparePublishTarget := fun _ => .ok ()

/-- The metadata state shared by the stage/publish/expand test rows. -/
def mdTest : MetadataService := mdFor "t2.medium" 0 0

/-- The ext4 single-node-writer Mount capability of the test requests. -/
def capMountExt4 : VolumeCapability :=
  ⟨.mount (some ⟨"ext4", []⟩), .singleNodeWriter⟩

/-- The `success` row request of `TestNodeStageVolume`. -/
def stageReqBasic : StageRequest :=
  { volumeId := "vol-test", stagingTargetPath := "/staging/path",
    capability := some capMountExt4, devicePathHint := some "/dev/xvdba" }

section NodeStageVolumeFixtures
-- success: resolve, path exists, not our device mounted, format and mount.
example :
    nodeStageVolume mounterOk mdTest {} [] stageReqBasic =
      (.ok (), [.getRegion, .findDevicePath "/dev/xvdba" "vol-test" "" "us-west-2",
        .pathExists "/staging/path", .getDeviceNameFromMount "/staging/path",
        .formatAndMount "/dev/xvdba" "/staging/path" "ext4" [] [],
        .needResize "/dev/xvdba" "/staging/path"]) := rfl
-- missing_volume_id / missing_staging_target / missing_volume_capability.
example :
    nodeStageVolume mounterOk mdTest {} [] { stageReqBasic with volumeId := "" } =
      (.error ⟨.invalidArgument, "Volume ID not provided"⟩, []) := rfl
example :
    nodeStageVolume mounterOk mdTest {} [] { stageReqBasic with stagingTargetPath := "" } =
      (.error ⟨.invalidArgument, "Staging target not provided"⟩, []) := rfl
example :
    nodeStageVolume mounterOk mdTest {} [] { stageReqBasic with capability := none } =
      (.error ⟨.invalidArgument, "Volume capability not provided"⟩, []) := rfl
-- invalid_volume_attribute.
example :
    nodeStageVolume mounterOk mdTest {} []
      { stageReqBasic with volumeContext := { attrPartition := some "invalid-partition" } } =
      (.error ⟨.invalidArgument, "Volume Attribute is not valid"⟩, []) := rfl
-- unsupported_volume_capability.
example :
    nodeStageVolume mounterOk mdTest {} []
      { stageReqBasic with capability := some ⟨.mount (some ⟨"ext4", []⟩), .unknown⟩ } =
      (.error ⟨.invalidArgument, "Volume capability not supported"⟩, []) := rfl
-- block_volume: staging is a pass-through.
example :
    nodeStageVolume mounterOk mdTest {} []
      { stageReqBasic with
        capability := some ⟨.block, .singleNodeWriter⟩
        devicePathHint := none } = (.ok (), []) := rfl
-- missing_mount_volume.
example :
    nodeStageVolume mounterOk mdTest {} []
      { stageReqBasic with capability := some ⟨.mount none, .singleNodeWriter⟩ } =
      (.error ⟨.invalidArgument, "NodeStageVolume: mount is nil within volume capability"⟩,
        []) := rfl
-- default_fstype: empty fstype formats with ext4; missing dir is created.
example :
    (nodeStageVolume
      { mounterOk with
        pathExists := fun _ => .ok false
        getDeviceNameFromMount := fun _ => .ok ("", 0) } mdTest {} []
      { stageReqBasic with capability := some ⟨.mount (some ⟨"", []⟩), .singleNodeWriter⟩ }) =
      (.ok (), [.getRegion, .findDevicePath "/dev/xvdba" "vol-test" "" "us-west-2",
        .pathExists "/staging/path", .makeDir "/staging/path",
        .getDeviceNameFromMount "/staging/path",
        .formatAndMount "/dev/xvdba" "/staging/path" "ext4" [] [],
        .needResize "/dev/xvdba" "/staging/path"]) := rfl
-- invalid_fstype.
example :
    nodeStageVolume mounterOk mdTest {} []
      { stageReqBasic with capability := some ⟨.mount (some ⟨"invalid", []⟩), .singleNodeWriter⟩ } =
      (.error ⟨.invalidArgument, "NodeStageVolume: invalid fstype invalid"⟩, []) := rfl
-- invalid_block_size (and friends): non-numeric parameter.
example :
    nodeStageVolume mounterOk mdTest {} []
      { stageReqBasic with volumeContext := { blockSize := some "-" } } =
      (.error ⟨.invalidArgument, "Invalid blocksize (aborting!): <nil>"⟩, []) := rfl
example :
    nodeStageVolume mounterOk mdTest {} []
      { stageReqBasic with volumeContext := { ext4BigAlloc := some "-" } } =
      (.error ⟨.invalidArgument, "Invalid ext4bigalloc (aborting!): <nil>"⟩, []) := rfl
-- device_path_not_provided.
example :
    nodeStageVolume mounterOk mdTest {} []
      { stageReqBasic with
        devicePathHint := none
        volumeContext := { ext4ClusterSize := some "51" } } =
      (.error ⟨.invalidArgument, "Device path not provided"⟩, []) := rfl
-- volume_operation_already_exists.
example :
    nodeStageVolume mounterOk mdTest {} ["vol-test"] stageReqBasic =
      (.error ⟨.aborted,
        "An operation with the given volume=\"vol-test\" is already in progress"⟩, []) := rfl
-- valid_partition "1" and whole-device partition "0".
example :
    (nodeStageVolume mounterOk mdTest {} []
      { stageReqBasic with volumeContext := { attrPartition := some "1" } }).2.head? =
      some Call.getRegion := rfl
example :
    ((nodeStageVolume mounterOk mdTest {} []
      { stageReqBasic with volumeContext := { attrPartition := some "1" } }).2.get? 1) =
      some (.findDevicePath "/dev/xvdba" "vol-test" "1" "us-west-2") := rfl
example :
    ((nodeStageVolume mounterOk mdTest {} []
      { stageReqBasic with volumeContext := { attrPartition := some "0" } }).2.get? 1) =
      some (.findDevicePath "/dev/xvdba" "vol-test" "" "us-west-2") := rfl
-- find_device_path_error.
example :
    nodeStageVolume
      { mounterOk with findDevicePath := fun _ _ _ _ => .error "find device path error" }
      mdTest {} [] stageReqBasic =
      (.error ⟨.notFound, "Failed to find device path /dev/xvdba. find device path error"⟩,
        [.getRegion, .findDevicePath "/dev/xvdba" "vol-test" "" "us-west-2"]) := rfl
-- volume_already_staged: same device mounted, no format call.
example :
    nodeStageVolume
      { mounterOk with getDeviceNameFromMount := fun _ => .ok ("/dev/xvdba", 1) }
      mdTest {} [] stageReqBasic =
      (.ok (), [.getRegion, .findDevicePath "/dev/xvdba" "vol-test" "" "us-west-2",
        .pathExists "/staging/path", .getDeviceNameFromMount "/staging/path"]) := rfl
-- format_options_ext4: the exact ext4 option list.
example :
    (nodeStageVolume mounterOk mdTest {} []
      { stageReqBasic with volumeContext :=
        { blockSize := some "4096", inodeSize := some "512",
          bytesPerInode := some "16384", numberOfInodes := some "1000000",
          ext4BigAlloc := some "true", ext4ClusterSize := some "65536" } }).2.get? 4 =
      some (.formatAndMount "/dev/xvdba" "/staging/path" "ext4" []
        ["-b", "4096", "-I", "512", "-i", "16384", "-N", "1000000",
         "-O", "bigalloc", "-C", "65536"]) := rfl
-- format_options_xfs: the exact xfs option list.
example :
    (nodeStageVolume mounterOk mdTest {} []
      { stageReqBasic with
        capability := some ⟨.mount (some ⟨"xfs", []⟩), .singleNodeWriter⟩,
        volumeContext := { blockSize := some "4096", inodeSize := some "512" } }).2.get? 4 =
      some (.formatAndMount "/dev/xvdba" "/staging/path" "xfs" []
        ["-b", "size=4096", "-i", "size=512"]) := rfl
-- format_options_xfs_legacy.
example :
    (nodeStageVolume mounterOk mdTest { legacyXFSProgs := true } []
      { stageReqBasic with
        capability := some ⟨.mount (some ⟨"xfs", []⟩), .singleNodeWriter⟩,
        volumeContext := { inodeSize := some "512" } }).2.get? 4 =
      some (.formatAndMount "/dev/xvdba" "/staging/path" "xfs" []
        ["-i", "size=512", "-m", "bigtime=0,inobtcount=0,reflink=0"]) := rfl
end NodeStageVolumeFixtures

section NodeUnstageVolumeFixtures
-- success: refcount 1, unmounted.
example :
    nodeUnstageVolume { mounterOk with getDeviceNameFromMount := fun _ => .ok ("dev-test", 1) }
      [] ⟨"vol-test", "/staging/path"⟩ =
      (.ok (), [.getDeviceNameFromMount "/staging/path", .unstageTarget "/staging/path"]) := rfl
-- target_not_mounted: refcount 0, no unmount call.
example :
    nodeUnstageVolume { mounterOk with getDeviceNameFromMount := fun _ => .ok ("", 0) }
      [] ⟨"vol-test", "/staging/path"⟩ =
      (.ok (), [.getDeviceNameFromMount "/staging/path"]) := rfl
-- unstage_failed.
example :
    nodeUnstageVolume
      { mounterOk with
        getDeviceNameFromMount := fun _ => .ok ("", 1)
        unstageTarget := fun _ => .error "unstage failed" }
      [] ⟨"vol-test", "/staging/path"⟩ =
      (.error ⟨.internal, "Could not unmount target \"/staging/path\": unstage failed"⟩,
        [.getDeviceNameFromMount "/staging/path", .unstageTarget "/staging/path"]) := rfl
-- operation_already_exists.
example :
    nodeUnstageVolume mounterOk ["vol-test"] ⟨"vol-test", "/staging/path"⟩ =
      (.error ⟨.aborted,
        "An operation with the given volume=\"vol-test\" is already in progress"⟩, []) := rfl
end NodeUnstageVolumeFixtures

section NodeExpandVolumeFixtures
/-- The basic `TestNodeExpandVolume` request (no capability). -/
def expandReqBasic : ExpandRequest := { volumeId := "vol-test", volumePath := "/volume/path" }

-- success: fs path resolves device-name, resizes, reports 1000.
example :
    nodeExpandVolume
      { mounterOk with
        getDeviceNameFromMount := fun _ => .ok ("device-name", 1)
        findDevicePath := fun _ _ _ _ => .ok "/dev/xvdba" }
      mdTest [] expandReqBasic =
      (.ok ⟨1000⟩, [.isBlockDevice "/volume/path", .getDeviceNameFromMount "/volume/path",
        .getRegion, .findDevicePath "device-name" "vol-test" "" "us-west-2",
        .resize "/dev/xvdba" "/volume/path", .getBlockSizeBytes "/dev/xvdba"]) := rfl
-- missing_volume_id / missing_volume_path.
example :
    nodeExpandVolume mounterOk mdTest [] { expandReqBasic with volumeId := "" } =
      (.error ⟨.invalidArgument, "Volume ID not provided"⟩, []) := rfl
example :
    nodeExpandVolume mounterOk mdTest [] { expandReqBasic with volumePath := "" } =
      (.error ⟨.invalidArgument, "volume path must be provided"⟩, []) := rfl
-- invalid_volume_capability.
example :
    nodeExpandVolume mounterOk mdTest []
      { expandReqBasic with capability := some ⟨.block, .unknown⟩ } =
      (.error ⟨.invalidArgument, "VolumeCapability is invalid"⟩, []) := rfl
-- block_device: Block capability is a no-op returning the empty response.
example :
    nodeExpandVolume mounterOk mdTest []
      { expandReqBasic with capability := some ⟨.block, .singleNodeWriter⟩ } =
      (.ok ⟨0⟩, []) := rfl
-- block_device_success: no capability, path is a block device: report size.
example :
    nodeExpandVolume { mounterOk with isBlockDevice := fun _ => .ok true } mdTest []
      expandReqBasic =
      (.ok ⟨1000⟩, [.isBlockDevice "/volume/path", .getBlockSizeBytes "/volume/path"]) := rfl
-- operation_already_exists.
example :
    nodeExpandVolume mounterOk mdTest ["vol-test"]
      { expandReqBasic with volumePath := "/staging/path" } =
      (.error ⟨.aborted,
        "An operation with the given volume=\"vol-test\" is already in progress"⟩, []) := rfl
end NodeExpandVolumeFixtures

section NodeGetInfoFixtures
-- without_outpost_arn, and update_metadata_error giving the same response.
example :
    nodeGetInfo mdTest "linux" =
      (.ok ⟨"i-1234567890abcdef0",
        [(zoneTopologyKey, "us-west-2a"), (wellKnownZoneTopologyKey, "us-west-2a"),
         (osTopologyKey, "linux")]⟩,
       [.updateMetadata, .getInstanceID, .getAvailabilityZone, .getOutpostArn]) := rfl
example :
    nodeGetInfo { mdTest with updateResult := .error "metadata update failed" } "linux" =
      nodeGetInfo mdTest "linux" := rfl
-- with_outpost_arn.
example :
    (nodeGetInfo { mdTest with
      outpostArn := some
        ⟨"aws", "outposts", "us-west-2", "123456789012", "op-1234567890abcdef0"⟩ }
      "linux").1 =
      .ok ⟨"i-1234567890abcdef0",
        [(zoneTopologyKey, "us-west-2a"), (wellKnownZoneTopologyKey, "us-west-2a"),
         (osTopologyKey, "linux"), (awsRegionKey, "us-west-2"), (awsPartitionKey, "aws"),
         (awsAccountIDKey, "123456789012"), (awsOutpostIDKey, "op-1234567890abcdef0")]⟩ := rfl
end NodeGetInfoFixtures

section NodePublishVolumeFixtures
/-- The `success_block_device` row request of `TestNodePublishVolume`. -/
def publishReqBlock : PublishRequest :=
  { volumeId := "vol-test", stagingTargetPath := "/staging/path",
    targetPath := "/target/path", capability := some ⟨.block, .singleNodeWriter⟩,
    devicePathHint := some "/dev/xvdba" }

-- success_block_device.
example :
    nodePublishVolume mounterOk mdTest [] publishReqBlock =
      (.ok (), [.getRegion, .findDevicePath "/dev/xvdba" "vol-test" "" "us-west-2",
        .pathExists "/target", .makeFile "/target/path",
        .isLikelyNotMountPoint "/target/path",
        .mountCall "/dev/xvdba" "/target/path" "" ["bind"]]) := rfl
-- success_fs.
example :
    nodePublishVolume mounterOk mdTest []
      { publishReqBlock with capability := some ⟨.mount (some ⟨"", []⟩), .singleNodeWriter⟩ } =
      (.ok (), [.preparePublishTarget "/target/path", .isLikelyNotMountPoint "/target/path",
        .mountCall "/staging/path" "/target/path" "" ["bind"]]) := rfl
-- volume_id / staging / target not provided, capability not provided.
example :
    nodePublishVolume mounterOk mdTest [] { publishReqBlock with volumeId := "" } =
      (.error ⟨.invalidArgument, "Volume ID not provided"⟩, []) := rfl
example :
    nodePublishVolume mounterOk mdTest [] { publishReqBlock with targetPath := "" } =
      (.error ⟨.invalidArgument, "Target path not provided"⟩, []) := rfl
-- in-flight rejection.
example :
    nodePublishVolume mounterOk mdTest ["vol-test"] publishReqBlock =
      (.error ⟨.aborted,
        "An operation with the given volume=\"vol-test\" is already in progress"⟩, []) := rfl
-- nodePublishVolumeForBlock_invalid_volume_attribute (distinct message).
example :
    nodePublishVolume mounterOk mdTest []
      { publishReqBlock with volumeContext := { attrPartition := some "invalid-partition" } } =
      (.error ⟨.invalidArgument, "Volume Attribute is invalid"⟩, []) := rfl
-- partition "0" resolves the whole device, "1" is passed through.
example :
    ((nodePublishVolume mounterOk mdTest []
      { publishReqBlock with volumeContext := { attrPartition := some "0" } }).2.get? 1) =
      some (.findDevicePath "/dev/xvdba" "vol-test" "" "us-west-2") := rfl
example :
    ((nodePublishVolume mounterOk mdTest []
      { publishReqBlock with volumeContext := { attrPartition := some "1" } }).2.get? 1) =
      some (.findDevicePath "/dev/xvdba" "vol-test" "1" "us-west-2") := rfl
end NodePublishVolumeFixtures

section NodeUnpublishVolumeFixtures
example :
    nodeUnpublishVolume mounterOk [] ⟨"vol-test", "/target/path"⟩ =
      (.ok (), [.unpublishTarget "/target/path"]) := rfl
example :
    nodeUnpublishVolume
      { mounterOk with unpublishTarget := fun _ => .error "unpublish failed" }
      [] ⟨"vol-test", "/target/path"⟩ =
      (.error ⟨.internal, "Could not unmount \"/target/path\": unpublish failed"⟩,
        [.unpublishTarget "/target/path"]) := rfl
example :
    nodeUnpublishVolume mounterOk ["vol-test"] ⟨"vol-test", "/target/path"⟩ =
      (.error ⟨.aborted,
        "An operation with the given volume=\"vol-test\" is already in progress"⟩, []) := rfl
end NodeUnpublishVolumeFixtures

/-! ## Claims -/

/-- C1: for every mutating node operation (Stage, Unstage, Publish,
Unpublish, Expand), a request whose volume id is already registered in the
in-flight set fails immediately with an aborted-class error carrying the
message `An operation with the given volume="<id>" is already in progress`,
and no mounter or metadata capability is invoked (the call trace is empty). -/
theorem c1_inflight_duplicate_aborts
    (m : Mounter) (md : MetadataService) (opts : Options) (fl : List String)
    (sreq : StageRequest) (ureq : UnstageRequest) (preq : PublishRequest)
    (upreq : UnpublishRequest) (ereq : ExpandRequest)
    (hs : sreq.volumeId ∈ fl) (hu : ureq.volumeId ∈ fl) (hp : preq.volumeId ∈ fl)
    (hup : upreq.volumeId ∈ fl) (he : ereq.volumeId ∈ fl) :
    nodeStageVolume m md opts fl sreq =
      (.error ⟨.aborted, volumeOperationAlreadyExists sreq.volumeId⟩, []) ∧
    nodeUnstageVolume m fl ureq =
      (.error ⟨.aborted, volumeOperationAlreadyExists ureq.volumeId⟩, []) ∧
    nodePublishVolume m md fl preq =
      (.error ⟨.aborted, volumeOperationAlreadyExists preq.volumeId⟩, []) ∧
    nodeUnpublishVolume m fl upreq =
      (.error ⟨.aborted, volumeOperationAlreadyExists upreq.volumeId⟩, []) ∧
    nodeExpandVolume m md fl ereq =
      (.error ⟨.aborted, volumeOperationAlreadyExists ereq.volumeId⟩, []) := by
  refine ⟨?_, ?_, ?_, ?_, ?_⟩ <;>
    simp [nodeStageVolume, nodeUnstageVolume, nodePublishVolume, nodeUnpublishVolume,
      nodeExpandVolume, hs, hu, hp, hup, he]

/-- Witness for C1 at the test inputs: volume `vol-test` in flight, all five
operations return exactly the aborted error with the test's literal message
and make no collaborator call. -/
theorem c1_inflight_duplicate_aborts_witness :
    nodeStageVolume mounterOk mdTest {} ["vol-test"] stageReqBasic =
      (.error ⟨.aborted,
        "An operation with the given volume=\"vol-test\" is already in progress"⟩, []) ∧
    nodeUnstageVolume mounterOk ["vol-test"] ⟨"vol-test", "/staging/path"⟩ =
      (.error ⟨.aborted,
        "An operation with the given volume=\"vol-test\" is already in progress"⟩, []) ∧
    nodePublishVolume mounterOk mdTest ["vol-test"] publishReqBlock =
      (.error ⟨.aborted,
        "An operation with the given volume=\"vol-test\" is already in progress"⟩, []) ∧
    nodeUnpublishVolume mounterOk ["vol-test"] ⟨"vol-test", "/target/path"⟩ =
      (.error ⟨.aborted,
        "An operation with the given volume=\"vol-test\" is already in progress"⟩, []) ∧
    nodeExpandVolume mounterOk mdTest ["vol-test"] expandReqBasic =
      (.error ⟨.aborted,
        "An operation with the given volume=\"vol-test\" is already in progress"⟩, []) :=
  c1_inflight_duplicate_aborts mounterOk mdTest {} ["vol-test"] stageReqBasic
    ⟨"vol-test", "/staging/path"⟩ publishReqBlock ⟨"vol-test", "/target/path"⟩
    expandReqBasic (by decide) (by decide) (by decide) (by decide) (by decide)

/-- C2: a non-negative operator-supplied explicit volume attach limit is
returned verbatim by the attach-limit calculator, whatever the instance
type, ENI count, block-device-mapping count, or reserved slots. -/
theorem c2_explicit_limit_overrides (opts : Options) (md : MetadataService)
    (h : 0 ≤ opts.volumeAttachLimit) :
    getVolumesLimit opts md = opts.volumeAttachLimit := by
  simp [getVolumesLimit, h]

/-- Witness for C2: the `VolumeAttachLimit_specified` test row (`10` wins)
and an arbitrary other instance profile. -/
theorem c2_explicit_limit_overrides_witness :
    getVolumesLimit { volumeAttachLimit := 10, reservedVolumeAttachments := -1 }
      (mdFor "t2.medium" 0 0) = 10 ∧
    getVolumesLimit { volumeAttachLimit := 10 } (mdFor "m5d.large" 3 7) = 10 :=
  ⟨c2_explicit_limit_overrides _ (mdFor "t2.medium" 0 0) (by decide),
   c2_explicit_limit_overrides _ (mdFor "m5d.large" 3 7) (by decide)⟩

/-- Counterexample to C3 as stated: the attach-limit calculator is *not*
at least 1 on every input, because an explicit attach limit of `0` is
returned verbatim (rule 1 overrides the clamp). -/
theorem c3_counterexample_explicit_zero :
    getVolumesLimit { volumeAttachLimit := 0, reservedVolumeAttachments := -1 }
      (mdFor "t2.medium" 0 0) = 0 ∧
    ¬ (∀ (opts : Options) (md : MetadataService), 1 ≤ getVolumesLimit opts md) := by
  constructor
  · decide
  · intro h
    have h0 := h { volumeAttachLimit := 0, reservedVolumeAttachments := -1 }
      (mdFor "t2.medium" 0 0)
    revert h0
    decide

/-- C3 (amended): whenever no non-negative explicit limit is supplied (the
explicit limit is negative, i.e. unset), the attach-limit calculator
returns at least 1: the baseline-minus-dynamic-counts formula is clamped
below at 1 even when the subtraction would be zero or negative. -/
theorem c3_computed_limit_at_least_one (opts : Options) (md : MetadataService)
    (h : opts.volumeAttachLimit < 0) :
    1 ≤ getVolumesLimit opts md := by
  unfold getVolumesLimit
  rw [if_neg (by omega)]
  simp only []
  split <;> omega

/-- Witness for C3 (amended): the `attached_max_enis` row, where 40 attached
ENIs drive the subtraction negative and the clamp yields 1. -/
theorem c3_computed_limit_at_least_one_witness :
    1 ≤ getVolumesLimit { volumeAttachLimit := -1, reservedVolumeAttachments := 0 }
      (mdFor "t3.xlarge" 40 0) :=
  c3_computed_limit_at_least_one _ (mdFor "t3.xlarge" 40 0) (by decide)

/-- Follows the claim's (and spec §4.5 step 4's) words, for comparison with
`getVolumesLimit`: the same calculation except that GPU/accelerator counts
and NVMe instance-store devices never enter the subtraction — only ENIs and
block-device mappings do (the per-type reserved-slot subtraction is
dropped). -/
def getVolumesLimitNoAccel (opts : Options) (md : MetadataService) : Int :=
  if 0 ≤ opts.volumeAttachLimit then opts.volumeAttachLimit
  else
    let instanceType := md.instanceType
    let isNitro := isNitroInstanceType instanceType
    let available0 : Int := getMaxAttachments isNitro
    let reserved : Int :=
      if opts.reservedVolumeAttachments = -1 then md.numBlockDeviceMappings + 1
      else opts.reservedVolumeAttachments
    let dedicatedLimit := getDedicatedLimitForInstanceType instanceType
    let ebsLimit := getEBSLimitForInstanceType instanceType
    let available1 : Int :=
      match ebsLimit with
      | some m => min m available0
      | none => available0
    let available2 : Int :=
      if dedicatedLimit ≠ 0 then dedicatedLimit
      else if isNitro then
        let enis := md.numAttachedENIs
        match ebsLimit with
        | some _ => available1 - (enis - 1)
        | none => available1 - enis
      else available1
    let available3 := available2 - reserved
    if available3 ≤ 0 then 1 else available3

/-- Counterexample to C4 as stated: for `g4dn.xlarge` (1 GPU, 1 NVMe
instance-store volume) with 1 ENI and 0 mappings the calculator returns 24,
not the 26 that a subtraction of only ENIs and block-device mappings would
give — so GPU/instance-store slots *do* enter the subtraction for some
instance types. -/
theorem c4_counterexample_g4dn :
    getVolumesLimit optsUnset (mdFor "g4dn.xlarge" 1 0) = 24 ∧
    getVolumesLimitNoAccel optsUnset (mdFor "g4dn.xlarge" 1 0) = 26 ∧
    ¬ (∀ (opts : Options) (md : MetadataService),
        getVolumesLimit opts md = getVolumesLimitNoAccel opts md) := by
  refine ⟨by decide, by decide, fun h => ?_⟩
  have h0 := h optsUnset (mdFor "g4dn.xlarge" 1 0)
  revert h0
  decide

/-- C4 (amended): `g5.48xlarge` with 1 ENI, 0 mappings, no explicit limit
and no reserved slots yields exactly 8.  GPU/accelerator counts and NVMe
instance-store devices enter the subtraction only through the fixed
per-instance-type reserved-slot count: for every instance type whose
reserved-slot count is zero — `g5.48xlarge` among them — the result
coincides with the calculation in which only ENIs and EBS-relevant
block-device mappings are subtracted; for types with a non-zero
reserved-slot count that count is subtracted as well, whether or not the
type also has a per-type maximum-EBS entry (`g4dn.xlarge`, slot count 2,
yields 24; `d3.8xlarge` has a maximum-EBS entry of 3 *and* slot count 24,
and yields 1). -/
theorem c4_g5_limit_and_reserved_slots :
    getVolumesLimit optsUnset (mdFor "g5.48xlarge" 1 0) = 8 ∧
    getReservedSlotsForInstanceType "g5.48xlarge" = 0 ∧
    (∀ (opts : Options) (md : MetadataService),
      getReservedSlotsForInstanceType md.instanceType = 0 →
      getVolumesLimit opts md = getVolumesLimitNoAccel opts md) ∧
    getReservedSlotsForInstanceType "g4dn.xlarge" = 2 ∧
    getVolumesLimit optsUnset (mdFor "g4dn.xlarge" 1 0) = 24 ∧
    getEBSLimitForInstanceType "d3.8xlarge" = some 3 ∧
    getReservedSlotsForInstanceType "d3.8xlarge" = 24 ∧
    getVolumesLimit optsUnset (mdFor "d3.8xlarge" 1 0) = 1 := by
  refine ⟨by decide, by decide, fun opts md h => ?_, by decide, by decide, by decide,
    by decide, by decide⟩
  simp only [getVolumesLimit, getVolumesLimitNoAccel, h, sub_zero]

/-- Witness for C4 (amended): the g5.48xlarge row, the slot-count-zero
consequence instantiated at the g5.48xlarge profile itself, and the
g4dn.xlarge and d3.8xlarge rows. -/
theorem c4_g5_limit_and_reserved_slots_witness :
    getVolumesLimit optsUnset (mdFor "g5.48xlarge" 1 0) = 8 ∧
    getVolumesLimit optsUnset (mdFor "g5.48xlarge" 1 0) =
      getVolumesLimitNoAccel optsUnset (mdFor "g5.48xlarge" 1 0) ∧
    getVolumesLimit optsUnset (mdFor "g4dn.xlarge" 1 0) = 24 ∧
    getVolumesLimit optsUnset (mdFor "d3.8xlarge" 1 0) = 1 :=
  ⟨c4_g5_limit_and_reserved_slots.1,
   c4_g5_limit_and_reserved_slots.2.2.1 optsUnset (mdFor "g5.48xlarge" 1 0) (by decide),
   c4_g5_limit_and_reserved_slots.2.2.2.2.1,
   c4_g5_limit_and_reserved_slots.2.2.2.2.2.2.2⟩

/-- C5: staging is idempotent.  For a Mount-capability staging request that
passes validation, when device resolution returns a device that the mount
inspection of the staging path already reports as mounted there (with any
reference count, in particular at least 1), `NodeStageVolume` returns
success and the format-and-mount capability is never invoked. -/
theorem c5_stage_already_staged_skips_format
    (m : Mounter) (md : MetadataService) (opts : Options) (fl : List String)
    (req : StageRequest) (plan : StagePlan) (source : String) (r : Nat)
    (hfl : req.volumeId ∉ fl)
    (hplan : stageCheck opts req = .ok plan)
    (hblock : plan.isBlock = false)
    (hfind : m.findDevicePath plan.devicePath plan.volumeId plan.part md.region = .ok source)
    (hexists : m.pathExists plan.target = .ok true)
    (hmnt : m.getDeviceNameFromMount plan.target = .ok (source, r))
    (_hr : 1 ≤ r) :
    (nodeStageVolume m md opts fl req).1 = .ok () ∧
    ∀ c ∈ (nodeStageVolume m md opts fl req).2, c.isFormatAndMount = false := by
  simp [nodeStageVolume, hfl, hplan, hblock, stageMount, stageEnsureDir, stageMountCheck,
    hfind, hexists, hmnt, step, Call.isFormatAndMount]

/-- A Mounter whose mount inspection reports the staging path already
carrying the resolved device `/dev/xvdba` with reference count 1 (the
`volume_already_staged` row of `TestNodeStageVolume`). -/
def mounterStaged : Mounter :=
  { mounterOk with getDeviceNameFromMount := fun _ => .ok ("/dev/xvdba", 1) }

/-- The staging plan derived from the basic test request. -/
def stagePlanBasic : StagePlan :=
  { volumeId := "vol-test", target := "/staging/path", isBlock := false,
    fsType := "ext4", mountFlags := [], formatOptions := [],
    devicePath := "/dev/xvdba", part := "" }

/-- Witness for C5 at the `volume_already_staged` test row. -/
theorem c5_stage_already_staged_skips_format_witness :
    (nodeStageVolume mounterStaged mdTest {} [] stageReqBasic).1 = .ok () ∧
    ∀ c ∈ (nodeStageVolume mounterStaged mdTest {} [] stageReqBasic).2,
      c.isFormatAndMount = false :=
  c5_stage_already_staged_skips_format mounterStaged mdTest {} [] stageReqBasic
    stagePlanBasic "/dev/xvdba" 1 (by decide) rfl rfl rfl rfl rfl (by decide)

/-- Counterexample to C6 as stated: an Expand request with a valid Block
capability returns the *empty* response (capacity 0) without any
collaborator call — it does not report the device's raw size, which the
oracle would give as 1000 bytes. -/
theorem c6_counterexample_block_empty_response :
    nodeExpandVolume mounterOk mdTest []
      { volumeId := "vol-test", volumePath := "/volume/path",
        capability := some ⟨.block, .singleNodeWriter⟩ } = (.ok ⟨0⟩, []) ∧
    mounterOk.getBlockSizeBytes "/volume/path" = .ok 1000 ∧
    (0 : Int) ≠ 1000 :=
  ⟨rfl, rfl, by decide⟩

/-- C6 (amended): for every Expand request carrying a valid Block
access-type capability (and passing field validation, not in flight), the
operation returns success with the empty response — capacity 0 — and makes
no collaborator call at all; in particular the filesystem resize capability
is never invoked. -/
theorem c6_block_expand_empty_response
    (m : Mounter) (md : MetadataService) (fl : List String)
    (req : ExpandRequest) (cap : VolumeCapability)
    (hcap : req.capability = some cap) (hblock : cap.accessType = .block)
    (hmode : cap.accessMode.supported = true)
    (hid : req.volumeId ≠ "") (hpath : req.volumePath ≠ "")
    (hfl : req.volumeId ∉ fl) :
    nodeExpandVolume m md fl req = (.ok ⟨0⟩, []) := by
  simp [nodeExpandVolume, hfl, hid, hpath, hcap, hmode, hblock]

/-- Witness for C6 (amended) at the `block_device` test row. -/
theorem c6_block_expand_empty_response_witness :
    nodeExpandVolume mounterOk mdTest []
      { volumeId := "vol-test", volumePath := "/volume/path",
        capability := some ⟨.block, .singleNodeWriter⟩ } = (.ok ⟨0⟩, []) :=
  c6_block_expand_empty_response mounterOk mdTest [] _ ⟨.block, .singleNodeWriter⟩
    rfl rfl rfl (by decide) (by decide) (by decide)

/-- C7: an Unstage request with valid volume id and staging path whose
mount inspection reports reference count 0 succeeds without invoking the
unmount capability (the only collaborator call is the inspection itself). -/
theorem c7_unstage_not_mounted_noop
    (m : Mounter) (fl : List String) (req : UnstageRequest) (d : String)
    (hfl : req.volumeId ∉ fl) (hid : req.volumeId ≠ "")
    (htarget : req.stagingTargetPath ≠ "")
    (h : m.getDeviceNameFromMount req.stagingTargetPath = .ok (d, 0)) :
    nodeUnstageVolume m fl req =
      (.ok (), [.getDeviceNameFromMount req.stagingTargetPath]) ∧
    ∀ c ∈ (nodeUnstageVolume m fl req).2, c.isUnstage = false := by
  simp [nodeUnstageVolume, hfl, hid, htarget, h, step, Call.isUnstage]

/-- A Mounter whose mount inspection reports reference count 0
(the `target_not_mounted` row of `TestNodeUnstageVolume`). -/
def mounterNotMounted : Mounter :=
  { mounterOk with getDeviceNameFromMount := fun _ => .ok ("", 0) }

/-- Witness for C7 at the `target_not_mounted` test row. -/
theorem c7_unstage_not_mounted_noop_witness :
    nodeUnstageVolume mounterNotMounted [] ⟨"vol-test", "/staging/path"⟩ =
      (.ok (), [.getDeviceNameFromMount "/staging/path"]) ∧
    ∀ c ∈ (nodeUnstageVolume mounterNotMounted [] ⟨"vol-test", "/staging/path"⟩).2,
      c.isUnstage = false :=
  c7_unstage_not_mounted_noop mounterNotMounted [] ⟨"vol-test", "/staging/path"⟩ ""
    (by decide) (by decide) (by decide) rfl

/-- C10: a failing metadata refresh never fails `NodeGetInfo`: the response
is identical to the one produced when the refresh succeeds, and it is fully
populated — node id from the instance id, the zone under the driver zone
key and the well-known zone key, the host OS segment, and the outpost
segments when an outpost identity is present. -/
theorem c10_getinfo_survives_refresh_failure
    (md : MetadataService) (e : String) (hostOS : String) :
    nodeGetInfo { md with updateResult := .error e } hostOS =
      nodeGetInfo { md with updateResult := .ok () } hostOS ∧
    (nodeGetInfo md hostOS).1 =
      .ok { nodeId := md.instanceID,
            segments :=
              [(zoneTopologyKey, md.availabilityZone),
               (wellKnownZoneTopologyKey, md.availabilityZone),
               (osTopologyKey, hostOS)] ++
              (match md.outpostArn with
               | none => []
               | some a => [(awsRegionKey, a.region), (awsPartitionKey, a.arnPartition),
                   (awsAccountIDKey, a.accountID), (awsOutpostIDKey, a.resource)]) } := by
  constructor
  · rfl
  · cases hu : md.updateResult <;> cases ho : md.outpostArn <;>
      simp [nodeGetInfo, hu, ho]

/-- A digits-only string contains no `=` character. -/
theorem digitsOnly_no_eq {s : String} (h : digitsOnly s = true) :
    ∀ c ∈ s.data, c ≠ '=' := by
  intro c hc heq
  have hd := List.all_eq_true.mp h c hc
  rw [heq] at hd
  exact absurd hd (by decide)

/-- Inversion of `stageParamError = none` into the six per-parameter
checks. -/
theorem stageParamError_none_iff (fsType : String) (ctx : VolumeContext) :
    stageParamError fsType ctx = none ↔
      checkNumericParam ctx.blockSize fsType "blocksize" blockSizeFsTypes = none ∧
      checkNumericParam ctx.inodeSize fsType "inodesize" inodeSizeFsTypes = none ∧
      checkNumericParam ctx.bytesPerInode fsType "bytesperinode" bytesPerInodeFsTypes = none ∧
      checkNumericParam ctx.numberOfInodes fsType "numberofinodes" numberOfInodesFsTypes = none ∧
      checkBoolParam ctx.ext4BigAlloc fsType "ext4bigalloc" ext4OnlyFsTypes = none ∧
      checkNumericParam ctx.ext4ClusterSize fsType "ext4clustersize" ext4OnlyFsTypes = none := by
  cases h1 : checkNumericParam ctx.blockSize fsType "blocksize" blockSizeFsTypes <;>
  cases h2 : checkNumericParam ctx.inodeSize fsType "inodesize" inodeSizeFsTypes <;>
  cases h3 : checkNumericParam ctx.bytesPerInode fsType "bytesperinode" bytesPerInodeFsTypes <;>
  cases h4 : checkNumericParam ctx.numberOfInodes fsType "numberofinodes" numberOfInodesFsTypes <;>
  cases h5 : checkBoolParam ctx.ext4BigAlloc fsType "ext4bigalloc" ext4OnlyFsTypes <;>
  cases h6 : checkNumericParam ctx.ext4ClusterSize fsType "ext4clustersize" ext4OnlyFsTypes <;>
  simp [stageParamError, List.findSome?, h1, h2, h3, h4, h5, h6]

/-- A parameter not supported for the filesystem type can only pass its
check by being absent. -/
theorem checkNumericParam_none_of_unsupported {v : Option String}
    {fsType name : String} {allowed : List String} (hns : ¬ (fsType ∈ allowed))
    (h : checkNumericParam v fsType name allowed = none) : v = none := by
  cases v with
  | none => rfl
  | some s => simp [checkNumericParam, hns] at h

/-- Likewise for the boolean parameter check. -/
theorem checkBoolParam_none_of_unsupported {v : Option String}
    {fsType name : String} {allowed : List String} (hns : ¬ (fsType ∈ allowed))
    (h : checkBoolParam v fsType name allowed = none) : v = none := by
  cases v with
  | none => rfl
  | some s => simp [checkBoolParam, hns] at h

/-- A present numeric parameter that passes its check on a supported
filesystem type is a non-empty digits-only string. -/
theorem checkNumericParam_none_of_supported {s : String}
    {fsType name : String} {allowed : List String} (hsup : fsType ∈ allowed)
    (h : checkNumericParam (some s) fsType name allowed = none) :
    digitsOnly s = true ∧ s ≠ "" := by
  simpa [checkNumericParam, hsup] using h

/-- The ext4 fixture context of the `format_options_ext4` test row. -/
def ctxExt4Test : VolumeContext :=
  { blockSize := some "4096", inodeSize := some "512", bytesPerInode := some "16384",
    numberOfInodes := some "1000000", ext4BigAlloc := some "true",
    ext4ClusterSize := some "65536" }

/-- The xfs fixture context of the `format_options_xfs` test row. -/
def ctxXfsTest : VolumeContext := { blockSize := some "4096", inodeSize := some "512" }

/-- C8: format option derivation.  The ext4 fixture yields exactly
`-b 4096 -I 512 -i 16384 -N 1000000 -O bigalloc -C 65536`; the xfs fixture
yields exactly `-b size=4096 -i size=512`; and the two grammars are never
mixed: any context passing xfs validation produces only the xfs grammar
(`size=`-valued `-b`/`-i`, plus the legacy feature flags), and any context
passing ext4 validation produces no `=`-carrying (xfs-style) token. -/
theorem c8_format_option_derivation :
    buildFormatOptions "ext4" ctxExt4Test false =
      ["-b", "4096", "-I", "512", "-i", "16384", "-N", "1000000",
       "-O", "bigalloc", "-C", "65536"] ∧
    buildFormatOptions "xfs" ctxXfsTest false = ["-b", "size=4096", "-i", "size=512"] ∧
    (∀ (ctx : VolumeContext) (legacy : Bool), stageParamError "xfs" ctx = none →
      buildFormatOptions "xfs" ctx legacy =
        (match ctx.blockSize with
         | none => []
         | some bs => ["-b", "size=" ++ bs]) ++
        (match ctx.inodeSize with
         | none => []
         | some sz => ["-i", "size=" ++ sz]) ++
        (if legacy then ["-m", "bigtime=0,inobtcount=0,reflink=0"] else [])) ∧
    (∀ (ctx : VolumeContext) (legacy : Bool), stageParamError "ext4" ctx = none →
      ∀ s ∈ buildFormatOptions "ext4" ctx legacy, ∀ c ∈ s.data, c ≠ '=') := by
  refine ⟨rfl, rfl, ?_, ?_⟩
  · intro ctx legacy h
    obtain ⟨-, -, h3, h4, h5, h6⟩ := (stageParamError_none_iff "xfs" ctx).mp h
    have hbp := checkNumericParam_none_of_unsupported (by decide) h3
    have hni := checkNumericParam_none_of_unsupported (by decide) h4
    have hba := checkBoolParam_none_of_unsupported (by decide) h5
    have hcs := checkNumericParam_none_of_unsupported (by decide) h6
    simp [buildFormatOptions, hbp, hni, hba, hcs]
  · intro ctx legacy h
    obtain ⟨h1, h2, h3, h4, h5, h6⟩ := (stageParamError_none_iff "ext4" ctx).mp h
    simp only [buildFormatOptions, List.forall_mem_append]
    refine ⟨⟨⟨⟨⟨⟨?_, ?_⟩, ?_⟩, ?_⟩, ?_⟩, ?_⟩, ?_⟩
    · cases hbs : ctx.blockSize with
      | none => intro s hs; cases hs
      | some bs =>
        rw [hbs] at h1
        have hd := (checkNumericParam_none_of_supported (by decide) h1).1
        intro s hs
        cases hs with
        | head => decide
        | tail _ hs' =>
          cases hs' with
          | head => exact digitsOnly_no_eq hd
          | tail _ hs'' => cases hs''
    · cases his : ctx.inodeSize with
      | none => intro s hs; cases hs
      | some sz =>
        rw [his] at h2
        have hd := (checkNumericParam_none_of_supported (by decide) h2).1
        intro s hs
        cases hs with
        | head => decide
        | tail _ hs' =>
          cases hs' with
          | head => exact digitsOnly_no_eq hd
          | tail _ hs'' => cases hs''
    · cases hbp : ctx.bytesPerInode with
      | none => intro s hs; cases hs
      | some b =>
        rw [hbp] at h3
        have hd := (checkNumericParam_none_of_supported (by decide) h3).1
        intro s hs
        cases hs with
        | head => decide
        | tail _ hs' =>
          cases hs' with
          | head => exact digitsOnly_no_eq hd
          | tail _ hs'' => cases hs''
    · cases hni : ctx.numberOfInodes with
      | none => intro s hs; cases hs
      | some n =>
        rw [hni] at h4
        have hd := (checkNumericParam_none_of_supported (by decide) h4).1
        intro s hs
        cases hs with
        | head => decide
        | tail _ hs' =>
          cases hs' with
          | head => exact digitsOnly_no_eq hd
          | tail _ hs'' => cases hs''
    · by_cases hba : ctx.ext4BigAlloc = some "true"
      · rw [if_pos hba]
        intro s hs
        cases hs with
        | head => decide
        | tail _ hs' =>
          cases hs' with
          | head => decide
          | tail _ hs'' => cases hs''
      · rw [if_neg hba]
        intro s hs
        cases hs
    · cases hcs : ctx.ext4ClusterSize with
      | none => intro s hs; cases hs
      | some cs =>
        rw [hcs] at h6
        have hd := (checkNumericParam_none_of_supported (by decide) h6).1
        intro s hs
        cases hs with
        | head => decide
        | tail _ hs' =>
          cases hs' with
          | head => exact digitsOnly_no_eq hd
          | tail _ hs'' => cases hs''
    · intro s hs
      cases hs

/-- Witness for C8: the two fixture equalities, the xfs grammar consequence
at the xfs fixture context, and the no-`=` consequence at the ext4 fixture
context evaluated on its first option token. -/
theorem c8_format_option_derivation_witness :
    buildFormatOptions "ext4" ctxExt4Test false =
      ["-b", "4096", "-I", "512", "-i", "16384", "-N", "1000000",
       "-O", "bigalloc", "-C", "65536"] ∧
    buildFormatOptions "xfs" ctxXfsTest false = ["-b", "size=4096", "-i", "size=512"] ∧
    buildFormatOptions "xfs" ctxXfsTest true =
      ["-b", "size=4096", "-i", "size=512", "-m", "bigtime=0,inobtcount=0,reflink=0"] ∧
    (∀ c ∈ ("-b" : String).data, c ≠ '=') :=
  ⟨c8_format_option_derivation.1,
   c8_format_option_derivation.2.1,
   by
    have h := c8_format_option_derivation.2.2.1 ctxXfsTest true rfl
    simpa [ctxXfsTest] using h,
   c8_format_option_derivation.2.2.2 ctxExt4Test false rfl "-b"
    (by simp [buildFormatOptions, ctxExt4Test])⟩

/-- Modelled from the spec (§4.2): the device-resolution capability appends
a non-empty partition argument as a suffix to the resolved base device
path; the empty partition argument denotes the whole device and appends no
suffix. -/
def resolvedDevicePath (base part : String) : String :=
  if part = "" then base else base ++ part

/-- C9: partition handling in device-path resolution.  A partition
attribute of `"0"`, the empty string, or an absent attribute denotes the
whole device — Stage and Publish invoke resolution with an empty partition
argument — while any other (validated, numeric) value is passed through to
resolution; resolution appends a non-empty partition as a suffix to the
base path and appends nothing for the whole device. -/
theorem c9_partition_resolution :
    (∀ ctx : VolumeContext,
      (ctx.attrPartition = none ∨ ctx.attrPartition = some "" ∨ ctx.attrPartition = some "0") →
      requestedPartition ctx = "") ∧
    (∀ (ctx : VolumeContext) (p : String), ctx.attrPartition = some p → p ≠ "0" →
      requestedPartition ctx = p) ∧
    (∀ (m : Mounter) (md : MetadataService) (opts : Options) (fl : List String)
      (req : StageRequest) (mnt : MountVolume) (mode : AccessMode) (dp : String),
      req.volumeId ∉ fl → req.volumeId ≠ "" → req.stagingTargetPath ≠ "" →
      req.capability = some ⟨.mount (some mnt), mode⟩ → mode.supported = true →
      isValidVolumeContext req.volumeContext = true →
      (if mnt.fsType = "" then defaultFsType else mnt.fsType) ∈ validFSTypes →
      stageParamError (if mnt.fsType = "" then defaultFsType else mnt.fsType)
        req.volumeContext = none →
      req.devicePathHint = some dp →
      Call.findDevicePath dp req.volumeId (requestedPartition req.volumeContext) md.region
        ∈ (nodeStageVolume m md opts fl req).2) ∧
    (∀ (m : Mounter) (md : MetadataService) (fl : List String)
      (req : PublishRequest) (mode : AccessMode) (dp : String),
      req.volumeId ∉ fl → req.volumeId ≠ "" → req.stagingTargetPath ≠ "" →
      req.targetPath ≠ "" →
      req.capability = some ⟨.block, mode⟩ → mode.supported = true →
      req.devicePathHint = some dp →
      isValidVolumeContext req.volumeContext = true →
      Call.findDevicePath dp req.volumeId (requestedPartition req.volumeContext) md.region
        ∈ (nodePublishVolume m md fl req).2) ∧
    (∀ (base p : String), resolvedDevicePath base "" = base ∧
      (p ≠ "" → resolvedDevicePath base p = base ++ p)) := by
  refine ⟨?_, ?_, ?_, ?_, ?_⟩
  · intro ctx h
    rcases h with h | h | h <;> simp [requestedPartition, h]
  · intro ctx p hctx hp
    simp [requestedPartition, hctx, hp]
  · intro m md opts fl req mnt mode dp hfl hid hst hcap hmode hctx hfs hparam hdp
    cases hres : m.findDevicePath dp req.volumeId (requestedPartition req.volumeContext)
        md.region <;>
      simp [nodeStageVolume, stageCheck, hfl, hid, hst, hcap, hmode,
        hctx, hfs, hparam, hdp, stageMount, step, hres]
  · intro m md fl req mode dp hfl hid hst ht hcap hmode hdp hctx
    cases hres : m.findDevicePath dp req.volumeId (requestedPartition req.volumeContext)
        md.region <;>
      simp [nodePublishVolume, publishBlock, hfl, hid, hst, ht, hcap,
        hmode, hdp, hctx, step, hres]
  · intro base p
    refine ⟨rfl, fun hp => ?_⟩
    simp [resolvedDevicePath, hp]

/-- Witness for C9: partition `"0"` resolves the whole device in Stage,
partition `"1"` is passed through in Publish, and resolution appends the
suffix. -/
theorem c9_partition_resolution_witness :
    requestedPartition { attrPartition := some "0" } = "" ∧
    requestedPartition { attrPartition := some "1" } = "1" ∧
    Call.findDevicePath "/dev/xvdba" "vol-test" "" "us-west-2" ∈
      (nodeStageVolume mounterOk mdTest {} []
        { stageReqBasic with volumeContext := { attrPartition := some "0" } }).2 ∧
    Call.findDevicePath "/dev/xvdba" "vol-test" "1" "us-west-2" ∈
      (nodePublishVolume mounterOk mdTest []
        { publishReqBlock with volumeContext := { attrPartition := some "1" } }).2 ∧
    resolvedDevicePath "/dev/xvdba" "1" = "/dev/xvdba1" :=
  ⟨c9_partition_resolution.1 _ (Or.inr (Or.inr rfl)),
   c9_partition_resolution.2.1 _ "1" rfl (by decide),
   c9_partition_resolution.2.2.1 mounterOk mdTest {} [] _ ⟨"ext4", []⟩ .singleNodeWriter
     "/dev/xvdba" (by decide) (by decide) (by decide) rfl rfl rfl (by decide) rfl rfl,
   c9_partition_resolution.2.2.2.1 mounterOk mdTest [] _ .singleNodeWriter "/dev/xvdba"
     (by decide) (by decide) (by decide) (by decide) rfl rfl rfl rfl,
   (c9_partition_resolution.2.2.2.2 "/dev/xvdba" "1").2 (by decide)⟩
